import Mathlib

/-!
Verification of the plugin self-update subsystem and the authentication-token
lifecycle of the krita-ai-diffusion fork.

The development shallowly embeds the two source modules:
  * `ai_diffusion/updates.py`  — the `AutoUpdate` state machine (`_check`, `_run`,
    `_handle_errors`);
  * `ai_diffusion/ui/login.py` — the `LoginWidget` handlers and `check_token`.

Machine integers are modelled as `Nat`/`Int` with explicit reductions modulo
`2^32` where the hash computation needs them; fallible Python code is modelled
by carrying an `Option String` exception field so that mutations performed
before a raise remain visible, exactly as in CPython.
-/

namespace AiDiffusion

/-! ### SHA-256 (models Python's `hashlib.sha256(...).hexdigest()`)

`_run` computes `hashlib.sha256(archive_data).hexdigest()`; we implement the
FIPS 180-4 algorithm over byte lists so that the hash comparison in the update
pipeline can be evaluated on concrete inputs. -/

def w32 (n : Nat) : Nat := n % 4294967296

def add32 (a b : Nat) : Nat := (a + b) % 4294967296

def rotr (n x : Nat) : Nat := w32 ((x >>> n) ||| (x <<< (32 - n)))

def bsig0 (x : Nat) : Nat := rotr 2 x ^^^ rotr 13 x ^^^ rotr 22 x

def bsig1 (x : Nat) : Nat := rotr 6 x ^^^ rotr 11 x ^^^ rotr 25 x

def ssig0 (x : Nat) : Nat := rotr 7 x ^^^ rotr 18 x ^^^ (x >>> 3)

def ssig1 (x : Nat) : Nat := rotr 17 x ^^^ rotr 19 x ^^^ (x >>> 10)

def ch (x y z : Nat) : Nat := (x &&& y) ^^^ ((x ^^^ 4294967295) &&& z)

def maj (x y z : Nat) : Nat := (x &&& y) ^^^ (x &&& z) ^^^ (y &&& z)

def sha256K : List Nat :=
  [1116352408, 1899447441, 3049323471, 3921009573, 961987163,
   1508970993, 2453635748, 2870763221, 3624381080, 310598401,
   607225278, 1426881987, 1925078388, 2162078206, 2614888103,
   3248222580, 3835390401, 4022224774, 264347078, 604807628,
   770255983, 1249150122, 1555081692, 1996064986, 2554220882,
   2821834349, 2952996808, 3210313671, 3336571891, 3584528711,
   113926993, 338241895, 666307205, 773529912, 1294757372,
   1396182291, 1695183700, 1986661051, 2177026350, 2456956037,
   2730485921, 2820302411, 3259730800, 3345764771, 3516065817,
   3600352804, 4094571909, 275423344, 430227734, 506948616,
   659060556, 883997877, 958139571, 1322822218, 1537002063,
   1747873779, 1955562222, 2024104815, 2227730452, 2361852424,
   2428436474, 2756734187, 3204031479, 3329325298]

structure Hash8 where
  a : Nat
  b : Nat
  c : Nat
  d : Nat
  e : Nat
  f : Nat
  g : Nat
  h : Nat
deriving DecidableEq

def sha256H0 : Hash8 :=
  ⟨1779033703, 3144134277, 1013904242, 2773480762,
   1359893119, 2600822924, 528734635, 1541459225⟩

/-- One round of the SHA-256 compression function. -/
def sround (st : Hash8) (kw : Nat × Nat) : Hash8 :=
  let t1 := add32 st.h (add32 (bsig1 st.e) (add32 (ch st.e st.f st.g) (add32 kw.1 kw.2)))
  let t2 := add32 (bsig0 st.a) (maj st.a st.b st.c)
  ⟨add32 t1 t2, st.a, st.b, st.c, add32 st.d t1, st.e, st.f, st.g⟩

/-- Assemble big-endian 32-bit words from a byte list. -/
def bytesToWords : List Nat → List Nat
  | b0 :: b1 :: b2 :: b3 :: rest =>
      (((b0 % 256) <<< 24) + ((b1 % 256) <<< 16) + ((b2 % 256) <<< 8) + (b3 % 256))
        :: bytesToWords rest
  | _ => []

/-- Extend the 16-word message schedule to 64 words. -/
def extendSchedule : Nat → Array Nat → Array Nat
  | 0, w => w
  | n + 1, w =>
      let t := w.size
      let x := add32 (add32 (ssig1 (w.get! (t - 2))) (w.get! (t - 7)))
                     (add32 (ssig0 (w.get! (t - 15))) (w.get! (t - 16)))
      extendSchedule n (w.push x)

/-- Process one 64-byte block. -/
def compress (hs : Hash8) (block : List Nat) : Hash8 :=
  let w := extendSchedule 48 (Array.mk (bytesToWords block))
  let st := (sha256K.zip w.toList).foldl sround hs
  ⟨add32 hs.a st.a, add32 hs.b st.b, add32 hs.c st.c, add32 hs.d st.d,
   add32 hs.e st.e, add32 hs.f st.f, add32 hs.g st.g, add32 hs.h st.h⟩

/-- FIPS 180-4 padding: append 0x80, zeros, then the bit length as 8 bytes
big-endian, reaching a multiple of 64 bytes. -/
def padMsg (msg : List Nat) : List Nat :=
  let L := msg.length
  let k := (64 + 56 - ((L + 1) % 64)) % 64
  msg.map (· % 256) ++ [128] ++ List.replicate k 0 ++
    (List.range 8).map (fun i => ((8 * L) >>> (8 * (7 - i))) % 256)

def hexChars : List Char := "0123456789abcdef".data

/-- Lowercase hexadecimal rendering of a 32-bit word, 8 digits. -/
def hex8 (n : Nat) : String :=
  String.mk ((List.range 8).map (fun i => hexChars.getD ((n >>> (4 * (7 - i))) % 16) '0'))

/-- `hashlib.sha256(msg).hexdigest()`: the lowercase hex SHA-256 digest. -/
def sha256hex (msg : List Nat) : String :=
  let padded := padMsg msg
  let blocks := (List.range (padded.length / 64)).map
    (fun i => (padded.drop (64 * i)).take 64)
  let hs := blocks.foldl compress sha256H0
  String.join ([hs.a, hs.b, hs.c, hs.d, hs.e, hs.f, hs.g, hs.h].map hex8)

/-- ASCII lowercasing of a single character, for stating case-insensitive
hex-digest comparison. -/
def asciiLower (c : Char) : Char :=
  if 65 ≤ c.toNat ∧ c.toNat ≤ 90 then Char.ofNat (c.toNat + 32) else c

/-- Case-insensitive equality of two strings (ASCII case folding), the
comparison the spec attributes to the hash check. -/
def lowerEq (s t : String) : Bool :=
  s.data.map asciiLower = t.data.map asciiLower

/-! ### Updater data model (`ai_diffusion/updates.py`) -/

/-- `UpdateState` enum; the source names the up-to-date state `latest`
(the spec calls it `up_to_date`). -/
inductive UpdateState where
  | unknown
  | checking
  | available
  | latest
  | downloading
  | installing
  | restart_required
  | failed_check
  | failed_update
deriving DecidableEq, BEq

/-- `UpdatePackage` NamedTuple. -/
structure UpdatePackage where
  version : String
  url : String
  sha256 : String
deriving DecidableEq

/-- The mutable fields of an `AutoUpdate` object that the claims touch.
`latest_version` is an `Option String` because `result.get("version")` can
store Python `None` into the property. -/
structure AutoUpdate where
  plugin_dir : String
  current_version : String
  api_url : String
  package : Option UpdatePackage
  token_expired : Int
  state : UpdateState
  latest_version : Option String
  error : String
deriving DecidableEq

/-- Python truthiness of `self.latest_version` (`if not self.latest_version`):
falsy when `None` or the empty string. -/
def latestTruthy : Option String → Bool
  | none => false
  | some s => s ≠ ""

/-- The JSON manifest `result` as consumed by `_check`: the fields the code
reads. A `none` field models an absent key. -/
structure Manifest where
  version : Option String
  url : Option String
  sha256 : Option String
  expired : Option Int
deriving DecidableEq

/-- The hardcoded manifest location passed to `urllib.request.urlopen` in
`_check` (line 85 of `updates.py`). -/
def manifestURL : String :=
  "https://antaai.oss-cn-hangzhou.aliyuncs.com/comfyui/krita/result.json"

/-- The hardcoded fallback archive substituted when `result['url'] == ""`. -/
def fallbackURL : String :=
  "https://antaai.oss-cn-hangzhou.aliyuncs.com/comfyui/krita/ai-diffusion-latest.zip"

/-- Lines 86–87: `if result['url'] == "": result['url'] = <fallback>`.
Subscripting an absent key raises `KeyError`. -/
def resolveUrl (m : Manifest) : Except String Manifest :=
  match m.url with
  | none => .error "KeyError: url"
  | some u => .ok (if u = "" then { m with url := some fallbackURL } else m)

/-- Lines 89–95: set `token_expired` from the optional `expired` field;
`(expired := result.get("expired")) and isinstance(expired, int)` is truthy
only for a non-zero integer. -/
def tokenExpiredOf (m : Manifest) : Int :=
  match m.expired with
  | some e => if e ≠ 0 then e else 0
  | none => 0

/-- Result of one `check()` call: the mutated object, the URLs requested from
the network, and the exception (if any) escaping `_check` into
`_handle_errors`. -/
structure CheckResult where
  auto : AutoUpdate
  requests : List String
  exc : Option String
deriving DecidableEq

/-- `AutoUpdate._check` (updates.py lines 73–116). `resp` models the outcome of
`urllib.request.urlopen(manifestURL)` + `json.load`: either a raised transport
or parse exception, or the decoded manifest object. Mutations performed before
a raise persist, as in Python. -/
def checkBody (a : AutoUpdate) (resp : Except String Manifest) : CheckResult :=
  if a.state = UpdateState.restart_required then
    ⟨a, [], none⟩
  else
    let a1 := { a with state := UpdateState.checking }
    match resp with
    | .error e => ⟨a1, [manifestURL], some e⟩
    | .ok m0 =>
      match resolveUrl m0 with
      | .error e => ⟨a1, [manifestURL], some e⟩
      | .ok m =>
        let a2 := { a1 with token_expired := tokenExpiredOf m }
        let a3 := { a2 with latest_version := m.version }
        if ¬ latestTruthy a3.latest_version then
          ⟨{ a3 with state := UpdateState.failed_check,
                     error := "Failed to retrieve plugin update information" },
           [manifestURL], none⟩
        else if a3.latest_version = some a.current_version then
          ⟨{ a3 with state := UpdateState.latest }, [manifestURL], none⟩
        else if m.url.isNone ∨ m.sha256.isNone then
          ⟨{ a3 with state := UpdateState.failed_check,
                     error := "Plugin update package is incomplete" },
           [manifestURL], none⟩
        else
          ⟨{ a3 with package := some ⟨a3.latest_version.getD "", m.url.getD "",
                                      m.sha256.getD ""⟩,
                     state := UpdateState.available },
           [manifestURL], none⟩

/-- `_handle_errors` (lines 161–167) around `_check`: any exception is logged,
`error` is set to the prefixed message and `state` to `failed_check`. -/
def check (a : AutoUpdate) (resp : Except String Manifest) : CheckResult :=
  let r := checkBody a resp
  match r.exc with
  | none => r
  | some e =>
    { r with
      auto := { r.auto with
                error := "Failed to check for new plugin version: " ++ e,
                state := UpdateState.failed_check },
      exc := none }

/-! ### Update installation (`AutoUpdate._run`, updates.py lines 118–149)

Directories are modelled as partial maps from path to file content. The
temporary staging directory and the live `plugin_dir` are distinct maps; the
downloaded bytes are a byte list; `zipfile.extractall` is an external archive
decoder passed in as a parameter (it may raise, e.g. `BadZipFile`). -/

/-- `shutil.copytree(src, dst, dirs_exist_ok=True)`: files of `src` overwrite
same-named files of `dst`; files only in `dst` are kept. -/
def copytree (src dst : String → Option String) : String → Option String :=
  fun p => (src p).orElse (fun _ => dst p)

/-- Result of one `run()` call: the mutated object, the live plugin directory
after installation, the states assigned to `self.state` in order, and the
exception (if any) escaping `_run` into `_handle_errors`. -/
structure RunResult where
  auto : AutoUpdate
  live : String → Option String
  visited : List UpdateState
  exc : Option String

/-- `AutoUpdate._run` (lines 123–149). `download` models
`await self._net.download(self._package.url)`; `extract` models opening the
written archive with `zipfile.ZipFile` and `extractall` into the staging
subdirectory, returning that directory's contents; `live` is the current
content of `plugin_dir`. The failed `assert` of line 124 raises
`AssertionError`, which `_handle_errors` catches like any other exception. -/
def runBody (a : AutoUpdate) (download : Except String (List Nat))
    (extract : List Nat → Except String (String → Option String))
    (live : String → Option String) : RunResult :=
  match a.package, latestTruthy a.latest_version with
  | some p, true =>
    let a1 := { a with state := UpdateState.downloading }
    match download with
    | .error e => ⟨a1, live, [UpdateState.downloading], some e⟩
    | .ok data =>
      let digest := sha256hex data
      if digest ≠ p.sha256 ∧ p.sha256 ≠ "" then
        ⟨a1, live, [UpdateState.downloading],
         some "Downloaded plugin package is corrupted or incomplete"⟩
      else
        let a2 := { a1 with state := UpdateState.installing }
        match extract data with
        | .error e => ⟨a2, live, [UpdateState.downloading, UpdateState.installing], some e⟩
        | .ok entries =>
          let a3 := { a2 with current_version := a2.latest_version.getD "",
                              state := UpdateState.restart_required }
          ⟨a3, copytree entries live,
           [UpdateState.downloading, UpdateState.installing, UpdateState.restart_required],
           none⟩
  | _, _ => ⟨a, live, [], some "AssertionError"⟩

/-- `run` = `_handle_errors(self._run, UpdateState.failed_update, ...)`
(lines 118–121 with 161–167). -/
def run (a : AutoUpdate) (download : Except String (List Nat))
    (extract : List Nat → Except String (String → Option String))
    (live : String → Option String) : RunResult :=
  let r := runBody a download extract live
  match r.exc with
  | none => r
  | some e =>
    { r with
      auto := { r.auto with
                error := "Failed to update plugin: " ++ e,
                state := UpdateState.failed_update },
      exc := none }

/-! ### Login module (`ai_diffusion/ui/login.py`)

Python values flowing out of `json.loads` are dynamically typed; we model them
with a small `Json` type and reproduce Python truthiness, the `in` operator
and subscripting (which can raise `TypeError`/`KeyError`). -/

inductive Json where
  | null
  | bool (b : Bool)
  | num (n : Int)
  | str (s : String)
  | arr (l : List Json)
  | obj (l : List (String × Json))

/-- Python truthiness of a decoded JSON value. -/
def jsonTruthy : Json → Bool
  | .null => false
  | .bool b => b
  | .num n => n ≠ 0
  | .str s => s ≠ ""
  | .arr l => ¬ l.isEmpty
  | .obj l => ¬ l.isEmpty

/-- Python `api_code == 200` on a decoded JSON value: true exactly for the
integer 200 (no other modelled value compares equal to an int in Python). -/
def isNum200 : Json → Bool
  | .num m => m = 200
  | _ => false

/-- Python `k in x` for a decoded JSON value `x`: key lookup on dicts,
membership on lists, substring test on strings, `TypeError` otherwise. -/
def jsonContains (j : Json) (k : String) : Except String Bool :=
  match j with
  | .obj l => .ok ((l.lookup k).isSome)
  | .arr l => .ok (l.any (fun x => match x with | .str s => s = k | _ => false))
  | .str s => .ok (k = "" ∨ (s.splitOn k).length > 1)
  | _ => .error "TypeError: argument not iterable"

/-- Python `x[k]` for a decoded JSON value `x`: raises `KeyError` for a missing
dict key and `TypeError` for non-dict values indexed by a string. -/
def jsonItem (j : Json) (k : String) : Except String Json :=
  match j with
  | .obj l =>
    match l.lookup k with
    | some v => .ok v
    | none => .error ("KeyError: " ++ k)
  | _ => .error "TypeError: indices must be integers"

/-- Python `str(x)` of a decoded JSON value, as used inside an f-string. -/
def pyStr : Json → String
  | .null => "None"
  | .bool b => if b then "True" else "False"
  | .num n => toString n
  | .str s => s
  | .arr _ => "[...]"
  | .obj _ => "{...}"

/-- The persisted settings fields touched by the login module. `user_token`
and `user_id` hold whatever Python value `save_token` stored (normally a
string), so they are `Json`. -/
structure Settings where
  user_token : Json
  user_id : Json
  last_login_time : Int
  token_expiration : Int

/-- `check_token` (login.py lines 143–161): returns the validity verdict and
the (possibly mutated and saved) settings. `now` models `int(time.time())`. -/
def check_token (now : Int) (s : Settings) : Bool × Settings :=
  if ¬ jsonTruthy s.user_token ∨ s.last_login_time = 0 then
    (false, s)
  else if now > s.last_login_time + s.token_expiration then
    (false, { s with user_token := .str "", token_expiration := 0 })
  else
    (true, s)

/-- The widget state touched by `handle_login` / `on_login_finished`. -/
structure LoginWidget where
  username_input : String
  password_input : String
  status_label : String
  login_button_enabled : Bool
deriving DecidableEq

/-- A GET request to the login endpoint carrying the two query parameters. -/
structure LoginRequest where
  username : String
  password : String
deriving DecidableEq

/-- Result of `handle_login`: widget state, settings, requests issued. -/
structure HandleLoginResult where
  widget : LoginWidget
  settings : Settings
  requests : List LoginRequest

/-- `LoginWidget.handle_login` (lines 66–89): empty username or password stops
with a status message and no network call; otherwise the button is disabled
and one GET request is issued. -/
def handle_login (w : LoginWidget) (s : Settings) : HandleLoginResult :=
  if w.username_input = "" ∨ w.password_input = "" then
    ⟨{ w with status_label := "工号和密码不能为空。" }, s, []⟩
  else
    ⟨{ w with status_label := "正在登录...", login_button_enabled := false }, s,
     [⟨w.username_input, w.password_input⟩]⟩

/-- `LoginWidget.save_token` (lines 129–135): store the token and worker id,
stamp the login time, persist. -/
def save_token (token worker_id : Json) (now : Int) (s : Settings) : Settings :=
  { s with user_token := token, user_id := worker_id, last_login_time := now }

/-- The reply delivered to `on_login_finished`: either a transport error, or a
body that fails JSON/UTF-8 decoding, or a decoded JSON value. -/
inductive Reply where
  | networkError (errString : String)
  | undecodable
  | body (j : Json)

/-- Result of `on_login_finished`: widget state, settings, whether the
`login_success` signal was emitted, and the exception (if any) escaping the
slot uncaught. -/
structure HandlerResult where
  widget : LoginWidget
  settings : Settings
  emitted : Bool
  exc : Option String

/-- `LoginWidget.on_login_finished` (lines 91–127). `now` models
`int(time.time())` at the moment `save_token` stamps the session. Mutations
performed before an uncaught raise persist, as in Python. -/
def on_login_finished (reply : Reply) (now : Int) (w : LoginWidget) (s : Settings) :
    HandlerResult :=
  let w1 := { w with login_button_enabled := true }
  match reply with
  | .networkError _ =>
    ⟨{ w1 with status_label := "登录失败: 工号或者密码错误" }, s, false, none⟩
  | .undecodable =>
    ⟨{ w1 with status_label := "错误: 服务器返回无效的JSON响应。" }, s, false, none⟩
  | .body j =>
    match j with
    | .obj l =>
      let api_code := (l.lookup "code").getD .null
      if isNum200 api_code then
        let data := (l.lookup "data").getD .null
        if jsonTruthy data then
          match jsonContains data "api" with
          | .error e => ⟨w1, s, false, some e⟩
          | .ok hasApi =>
            if hasApi then
              match jsonItem data "api" with
              | .error e => ⟨w1, s, false, some e⟩
              | .ok token =>
                match jsonItem data "worker_id" with
                | .error e => ⟨w1, s, false, some e⟩
                | .ok worker_id =>
                  ⟨{ w1 with status_label := "登录成功！" },
                   save_token token worker_id now s, true, none⟩
            else
              ⟨{ w1 with status_label := "登录成功，但响应中未找到Token。" }, s, false, none⟩
        else
          ⟨{ w1 with status_label := "登录成功，但响应中未找到Token。" }, s, false, none⟩
      else
        match l.lookup "msg" with
        | none =>
          ⟨{ w1 with status_label := "登录失败，代码: " ++ pyStr api_code }, s, false, none⟩
        | some (.str m) =>
          ⟨{ w1 with status_label := m }, s, false, none⟩
        | some _ =>
          ⟨w1, s, false, some "TypeError: setText requires str"⟩
    | _ => ⟨w1, s, false, some "AttributeError: object has no attribute get"⟩

/-! ### Theorems -/

/-- Claim C3: while the updater is in `restart_required`, `check()` is a
no-op: the object — state, `latest_version`, `error` and the held package —
is returned unchanged and no network request is issued. -/
theorem C3_restart_required_check_noop (a : AutoUpdate) (resp : Except String Manifest)
    (h : a.state = UpdateState.restart_required) :
    (check a resp).auto = a ∧ (check a resp).requests = [] := by
  simp [check, checkBody, h]

theorem C3_restart_required_check_noop_witness :
    (check ⟨"d", "1.0", "u", none, 0, UpdateState.restart_required, some "", ""⟩
        (Except.error "boom")).auto
      = ⟨"d", "1.0", "u", none, 0, UpdateState.restart_required, some "", ""⟩ ∧
    (check ⟨"d", "1.0", "u", none, 0, UpdateState.restart_required, some "", ""⟩
        (Except.error "boom")).requests = [] :=
  C3_restart_required_check_noop _ _ rfl

/-- Claim C10: when the username field or the password field is empty,
`handle_login` issues no network request, leaves the persisted settings
untouched, and only updates the on-screen status message. -/
theorem C10_empty_credentials_no_request (w : LoginWidget) (s : Settings)
    (h : w.username_input = "" ∨ w.password_input = "") :
    handle_login w s =
      ⟨{ w with status_label := "工号和密码不能为空。" }, s, []⟩ := by
  unfold handle_login
  rw [if_pos h]

theorem C10_empty_credentials_no_request_witness :
    handle_login ⟨"", "p", "", true⟩ ⟨.str "t", .null, 5, 10⟩ =
      ⟨⟨"", "p", "工号和密码不能为空。", true⟩, ⟨.str "t", .null, 5, 10⟩, []⟩ :=
  C10_empty_credentials_no_request ⟨"", "p", "", true⟩ ⟨.str "t", .null, 5, 10⟩
    (Or.inl rfl)

/-- The validity verdict of `check_token`, characterised. -/
theorem check_token_true_iff (now : Int) (s : Settings) (t : String)
    (ht : s.user_token = .str t) :
    (check_token now s).fst = true ↔
      (t ≠ "" ∧ s.last_login_time ≠ 0 ∧
        now ≤ s.last_login_time + s.token_expiration) := by
  unfold check_token
  by_cases h1 : t = "" <;> by_cases h2 : s.last_login_time = 0 <;>
    by_cases h3 : now > s.last_login_time + s.token_expiration <;>
    (simp [ht, h1, h2, h3, jsonTruthy]; try omega)

/-- Once `check_token` has answered false, the next call answers false again:
the guard either did not depend on the clock, or the token was cleared. -/
theorem check_token_false_again (now now' : Int) (s : Settings)
    (h : (check_token now s).fst = false) :
    (check_token now' (check_token now s).snd).fst = false := by
  by_cases hg : ¬ jsonTruthy s.user_token ∨ s.last_login_time = 0
  · have e : check_token now s = (false, s) := by
      unfold check_token; rw [if_pos hg]
    rw [e]
    unfold check_token
    rw [if_pos hg]
  · by_cases h3 : now > s.last_login_time + s.token_expiration
    · have e : check_token now s =
          (false, { s with user_token := .str "", token_expiration := 0 }) := by
        unfold check_token; rw [if_neg hg, if_pos h3]
      rw [e]
      unfold check_token
      rw [if_pos (Or.inl (by simp [jsonTruthy]))]
    · exfalso
      have e : check_token now s = (true, s) := by
        unfold check_token; rw [if_neg hg, if_neg h3]
      rw [e] at h
      simp at h

/-- The expiry branch of `check_token` clears the token and the ttl. -/
theorem check_token_expire_eq (now : Int) (s : Settings)
    (hg : ¬ (¬ jsonTruthy s.user_token ∨ s.last_login_time = 0))
    (h3 : now > s.last_login_time + s.token_expiration) :
    (check_token now s).snd =
      { s with user_token := .str "", token_expiration := 0 } := by
  unfold check_token
  rw [if_neg hg, if_pos h3]

/-- Claim C2 (amended): `check_token` returns true iff the stored token is a
non-empty string, the login timestamp is non-zero and `now` is within the
expiry window; once it has returned false every subsequent call returns false
again; but the stored token is guaranteed to read as empty afterwards only
when the false verdict came from the expiry branch — a record with a non-empty
token and a zero timestamp is returned unchanged. -/
theorem C2_token_validity (now now' : Int) (s : Settings) (t : String)
    (ht : s.user_token = .str t) :
    ((check_token now s).fst = true ↔
      (t ≠ "" ∧ s.last_login_time ≠ 0 ∧
        now ≤ s.last_login_time + s.token_expiration)) ∧
    ((check_token now s).fst = false →
      (check_token now' (check_token now s).snd).fst = false) ∧
    (t ≠ "" → s.last_login_time ≠ 0 →
      now > s.last_login_time + s.token_expiration →
      (check_token now s).snd.user_token = .str "") := by
  refine ⟨check_token_true_iff now s t ht, check_token_false_again now now' s, ?_⟩
  intro h1 h2 h3
  have hg : ¬ (¬ jsonTruthy s.user_token ∨ s.last_login_time = 0) := by
    simp [ht, jsonTruthy, h1, h2]
  rw [check_token_expire_eq now s hg h3]

theorem C2_token_validity_witness :
    (((check_token 100 ⟨.str "tok", .null, 10, 5⟩).fst = true ↔
      ("tok" ≠ "" ∧ (10 : Int) ≠ 0 ∧ (100 : Int) ≤ 10 + 5)) ∧
    ((check_token 100 ⟨.str "tok", .null, 10, 5⟩).fst = false →
      (check_token 200 (check_token 100 ⟨.str "tok", .null, 10, 5⟩).snd).fst = false) ∧
    ("tok" ≠ "" → (10 : Int) ≠ 0 → (100 : Int) > 10 + 5 →
      (check_token 100 ⟨.str "tok", .null, 10, 5⟩).snd.user_token = .str "")) :=
  C2_token_validity 100 200 ⟨.str "tok", .null, 10, 5⟩ "tok" rfl

/-- Claim C2 counterexample: on the record with token `"x"` and login
timestamp `0`, `check_token` returns false yet the stored token still reads
`"x"`, refuting "once it has returned false ... the stored token reads as
empty". -/
theorem C2_counterexample :
    (check_token 5 ⟨.str "x", .null, 0, 100⟩).fst = false ∧
    (check_token 5 ⟨.str "x", .null, 0, 100⟩).snd.user_token = .str "x" :=
  ⟨rfl, rfl⟩

/-- Claim C5 (amended): when `check_token` detects expiry it clears the
session by resetting the stored token to the empty string and the configured
ttl (`token_expiration`) to 0; the issue timestamp `last_login_time` is left
unchanged (the code never resets it). -/
theorem C5_expiry_clears_token_and_ttl (now : Int) (s : Settings) (t : String)
    (ht : s.user_token = .str t) (h1 : t ≠ "") (h2 : s.last_login_time ≠ 0)
    (h3 : now > s.last_login_time + s.token_expiration) :
    (check_token now s).snd =
      { s with user_token := .str "", token_expiration := 0 } ∧
    (check_token now s).snd.last_login_time = s.last_login_time := by
  have hg : ¬ (¬ jsonTruthy s.user_token ∨ s.last_login_time = 0) := by
    simp [ht, jsonTruthy, h1, h2]
  rw [check_token_expire_eq now s hg h3]
  exact ⟨rfl, rfl⟩

theorem C5_expiry_clears_token_and_ttl_witness :
    ((check_token 100 ⟨.str "t5", .null, 7, 5⟩).snd =
      { (⟨.str "t5", .null, 7, 5⟩ : Settings) with
        user_token := .str "", token_expiration := 0 } ∧
    (check_token 100 ⟨.str "t5", .null, 7, 5⟩).snd.last_login_time = 7) :=
  C5_expiry_clears_token_and_ttl 100 ⟨.str "t5", .null, 7, 5⟩ "t5" rfl
    (by decide) (by decide) (by decide)

/-- Claim C5 counterexample: on the expired record with timestamp 10,
`check_token` clears the token but leaves `last_login_time` at 10 — it does
not reset the issue timestamp to 0 as the claim states. -/
theorem C5_counterexample :
    (check_token 100 ⟨.str "tok", .null, 10, 5⟩).fst = false ∧
    (check_token 100 ⟨.str "tok", .null, 10, 5⟩).snd.user_token = .str "" ∧
    (check_token 100 ⟨.str "tok", .null, 10, 5⟩).snd.last_login_time = 10 ∧
    ¬ (check_token 100 ⟨.str "tok", .null, 10, 5⟩).snd.last_login_time = 0 :=
  ⟨rfl, rfl, rfl, by decide⟩

/-- Claim C7: the login completion handler does let an exception escape: on
the well-formed success response with code 200 whose `data` object carries
`api` but lacks `worker_id`, the unguarded `data["worker_id"]` subscript
raises `KeyError`, which is not caught inside the handler; no status message
is set and the settings are untouched. -/
theorem C7_worker_id_keyerror_escapes :
    (on_login_finished
        (.body (.obj [("code", .num 200), ("data", .obj [("api", .str "T1")])]))
        1000 ⟨"u", "p", "", false⟩ ⟨.str "", .null, 0, 0⟩).exc
      = some "KeyError: worker_id" ∧
    (on_login_finished
        (.body (.obj [("code", .num 200), ("data", .obj [("api", .str "T1")])]))
        1000 ⟨"u", "p", "", false⟩ ⟨.str "", .null, 0, 0⟩).settings
      = ⟨.str "", .null, 0, 0⟩ ∧
    (on_login_finished
        (.body (.obj [("code", .num 200), ("data", .obj [("api", .str "T1")])]))
        1000 ⟨"u", "p", "", false⟩ ⟨.str "", .null, 0, 0⟩).emitted = false :=
  ⟨rfl, rfl, rfl⟩

/-- The `_handle_errors` wrapper around `_check` does not alter the set of
issued requests. -/
theorem check_requests_eq (a : AutoUpdate) (resp : Except String Manifest) :
    (check a resp).requests = (checkBody a resp).requests := by
  unfold check
  rcases hx : (checkBody a resp).exc with _ | e <;> simp [hx]

/-- Claim C8 (amended): `check()` always issues its single manifest request to
the fixed hardcoded URL `manifestURL`, independent of the configured
`api_url`; the configured endpoint only appears in a log message. -/
theorem C8_fixed_manifest_url (a : AutoUpdate) (resp : Except String Manifest)
    (h : ¬ a.state = UpdateState.restart_required) :
    (check a resp).requests = [manifestURL] := by
  rw [check_requests_eq]
  unfold checkBody
  rw [if_neg h]
  rcases resp with e | m
  · rfl
  · rcases hu : m.url with _ | u <;> simp only [resolveUrl, hu]
    all_goals repeat' split
    all_goals rfl

theorem C8_fixed_manifest_url_witness :
    (check ⟨"d", "1.0", "https://a.example", none, 0, UpdateState.unknown, some "", ""⟩
        (.ok ⟨some "2.0", some "u", some "h", none⟩)).requests = [manifestURL] :=
  C8_fixed_manifest_url _ _ (by decide)

/-- Claim C8 counterexample: two updaters configured with different `api_url`
values issue the identical request — the fixed `manifestURL` — and reach the
same state from the same manifest, so the request target is not derived from
`api_url` and the outcome does not depend on it. -/
theorem C8_counterexample :
    (check ⟨"d", "1.0", "https://a.example", none, 0, UpdateState.unknown, some "", ""⟩
        (.ok ⟨some "2.0", some "u", some "h", none⟩)).requests
      = (check ⟨"d", "1.0", "https://b.example", none, 0, UpdateState.unknown, some "", ""⟩
          (.ok ⟨some "2.0", some "u", some "h", none⟩)).requests ∧
    (check ⟨"d", "1.0", "https://a.example", none, 0, UpdateState.unknown, some "", ""⟩
        (.ok ⟨some "2.0", some "u", some "h", none⟩)).requests = [manifestURL] ∧
    (check ⟨"d", "1.0", "https://a.example", none, 0, UpdateState.unknown, some "", ""⟩
        (.ok ⟨some "2.0", some "u", some "h", none⟩)).auto.state
      = (check ⟨"d", "1.0", "https://b.example", none, 0, UpdateState.unknown, some "", ""⟩
          (.ok ⟨some "2.0", some "u", some "h", none⟩)).auto.state ∧
    ("https://a.example" : String) ≠ "https://b.example" :=
  ⟨rfl, rfl, rfl, by decide⟩

/-- Claim C4 (amended): when the manifest's `url` field is present and equal
to the empty string, `check()` substitutes the hardcoded fallback archive URL
and continues on the normal path; but when the `url` key is absent entirely,
the subscript `result['url']` raises `KeyError` and `check()` ends in
`failed_check` with a non-empty error instead of substituting the fallback. -/
theorem C4_url_fallback_only_when_empty (a : AutoUpdate) (m : Manifest)
    (h : ¬ a.state = UpdateState.restart_required) :
    (m.url = some "" → resolveUrl m = .ok { m with url := some fallbackURL }) ∧
    (m.url = none →
      (check a (.ok m)).auto.state = UpdateState.failed_check ∧
      (check a (.ok m)).auto.error
        = "Failed to check for new plugin version: KeyError: url" ∧
      (check a (.ok m)).auto.package = a.package) := by
  constructor
  · intro hu
    unfold resolveUrl
    rw [hu]
    rfl
  · intro hu
    unfold check checkBody resolveUrl
    rw [if_neg h]
    dsimp only
    rw [hu]
    exact ⟨rfl, rfl, rfl⟩

theorem C4_url_fallback_only_when_empty_witness :
    (resolveUrl ⟨some "2.0", some "", some "h", none⟩
      = .ok { (⟨some "2.0", some "", some "h", none⟩ : Manifest) with
              url := some fallbackURL }) ∧
    ((check ⟨"d", "1.0", "u", none, 0, UpdateState.unknown, some "", ""⟩
        (.ok ⟨some "2.0", none, some "h", none⟩)).auto.state
      = UpdateState.failed_check ∧
     (check ⟨"d", "1.0", "u", none, 0, UpdateState.unknown, some "", ""⟩
        (.ok ⟨some "2.0", none, some "h", none⟩)).auto.error
      = "Failed to check for new plugin version: KeyError: url" ∧
     (check ⟨"d", "1.0", "u", none, 0, UpdateState.unknown, some "", ""⟩
        (.ok ⟨some "2.0", none, some "h", none⟩)).auto.package = none) :=
  ⟨(C4_url_fallback_only_when_empty
      ⟨"d", "1.0", "u", none, 0, UpdateState.unknown, some "", ""⟩
      ⟨some "2.0", some "", some "h", none⟩ (by decide)).1 rfl,
   (C4_url_fallback_only_when_empty
      ⟨"d", "1.0", "u", none, 0, UpdateState.unknown, some "", ""⟩
      ⟨some "2.0", none, some "h", none⟩ (by decide)).2 rfl⟩

/-- Claim C4 counterexample: on a manifest with no `url` key at all `check()`
takes the error path — state `failed_check`, `KeyError` captured in `error`,
no package built — rather than substituting the fallback URL and continuing
on the normal path as the claim states. -/
theorem C4_counterexample :
    (check ⟨"d", "1.0", "u", none, 0, UpdateState.unknown, some "", ""⟩
        (.ok ⟨some "9.9", none, some "h", none⟩)).auto.state
      = UpdateState.failed_check ∧
    (check ⟨"d", "1.0", "u", none, 0, UpdateState.unknown, some "", ""⟩
        (.ok ⟨some "9.9", none, some "h", none⟩)).auto.error
      = "Failed to check for new plugin version: KeyError: url" ∧
    (check ⟨"d", "1.0", "u", none, 0, UpdateState.unknown, some "", ""⟩
        (.ok ⟨some "9.9", none, some "h", none⟩)).auto.package = none :=
  ⟨rfl, rfl, rfl⟩

/-- Claim C6 (amended): when the manifest version equals `current_version`
(and the `url` subscript does not raise), `check()` ends in the up-to-date
state (`latest`) and constructs no new package in that run; however the
`_package` field is left exactly as it was, so a package left over from an
earlier `check()` remains held — the code never clears it. -/
theorem C6_up_to_date_keeps_old_package (a : AutoUpdate) (m : Manifest) (u : String)
    (h1 : ¬ a.state = UpdateState.restart_required) (h2 : m.url = some u)
    (h3 : m.version = some a.current_version) (h4 : a.current_version ≠ "") :
    (check a (.ok m)).auto.state = UpdateState.latest ∧
    (check a (.ok m)).auto.package = a.package := by
  unfold check checkBody resolveUrl
  rw [if_neg h1]
  dsimp only
  rw [h2]
  by_cases hu : u = "" <;>
    simp [hu, h3, latestTruthy, h4]

theorem C6_up_to_date_keeps_old_package_witness :
    (check ⟨"d", "2.0", "u", some ⟨"2.0", "pkg", "h"⟩, 0, UpdateState.available,
        some "2.0", ""⟩ (.ok ⟨some "2.0", some "pkg", some "h", none⟩)).auto.state
      = UpdateState.latest ∧
    (check ⟨"d", "2.0", "u", some ⟨"2.0", "pkg", "h"⟩, 0, UpdateState.available,
        some "2.0", ""⟩ (.ok ⟨some "2.0", some "pkg", some "h", none⟩)).auto.package
      = some ⟨"2.0", "pkg", "h"⟩ :=
  C6_up_to_date_keeps_old_package _ _ "pkg" (by decide) rfl rfl (by decide)

/-- Claim C6 counterexample: an updater holding a package from an earlier
`check()` receives a manifest whose version equals `current_version`; the
resulting state is up-to-date (`latest`) but the old `UpdatePackage` is still
retained, refuting "the updater holds no package, including any package left
over from an earlier check()". -/
theorem C6_counterexample :
    (check ⟨"d", "2.0", "u", some ⟨"2.0", "old-url", "old-hash"⟩, 0,
        UpdateState.available, some "2.0", ""⟩
        (.ok ⟨some "2.0", some "x", some "y", none⟩)).auto.state
      = UpdateState.latest ∧
    (check ⟨"d", "2.0", "u", some ⟨"2.0", "old-url", "old-hash"⟩, 0,
        UpdateState.available, some "2.0", ""⟩
        (.ok ⟨some "2.0", some "x", some "y", none⟩)).auto.package
      = some ⟨"2.0", "old-url", "old-hash"⟩ ∧
    ¬ (check ⟨"d", "2.0", "u", some ⟨"2.0", "old-url", "old-hash"⟩, 0,
        UpdateState.available, some "2.0", ""⟩
        (.ok ⟨some "2.0", some "x", some "y", none⟩)).auto.package = none :=
  ⟨rfl, rfl, by decide⟩

/-- Claim C1 (amended): in an `apply()` run that downloaded bytes `B` against
a package with declared hash `H`, the updater reaches `installing` iff
`H == ""` or the lowercase hex SHA-256 digest of `B` equals `H` under the
code's exact, case-sensitive string comparison; otherwise it ends in
`failed_update` without ever entering `installing`. (The comparison is not
case-insensitive: `hexdigest()` emits lowercase, so an uppercase `H` never
matches.) -/
theorem C1_hash_gate (a : AutoUpdate) (p : UpdatePackage) (B : List Nat)
    (extract : List Nat → Except String (String → Option String))
    (live : String → Option String)
    (hp : a.package = some p) (hl : latestTruthy a.latest_version = true) :
    (UpdateState.installing ∈ (run a (.ok B) extract live).visited ↔
      (p.sha256 = "" ∨ sha256hex B = p.sha256)) ∧
    (p.sha256 ≠ "" → sha256hex B ≠ p.sha256 →
      (run a (.ok B) extract live).auto.state = UpdateState.failed_update ∧
      UpdateState.installing ∉ (run a (.ok B) extract live).visited) := by
  unfold run runBody
  rw [hp, hl]
  dsimp only
  by_cases hc : sha256hex B ≠ p.sha256 ∧ p.sha256 ≠ ""
  · rw [if_pos hc]
    dsimp only
    refine ⟨iff_of_false (by simp) ?_, fun _ _ => ⟨rfl, by simp⟩⟩
    rintro (h | h)
    · exact hc.2 h
    · exact hc.1 h
  · have hr : p.sha256 = "" ∨ sha256hex B = p.sha256 := by
      rcases not_and_or.mp hc with h | h
      · exact Or.inr (not_not.mp h)
      · exact Or.inl (not_not.mp h)
    rw [if_neg hc]
    rcases hx : extract B with e | entries <;>
      exact ⟨iff_of_true (by simp) hr, fun h1 h2 => absurd ⟨h2, h1⟩ hc⟩

theorem C1_hash_gate_witness :
    ((UpdateState.installing ∈
        (run ⟨"d", "1.0", "u", some ⟨"2.0", "x", ""⟩, 0, UpdateState.available,
            some "2.0", ""⟩ (.ok []) (fun _ => .ok (fun _ => none))
            (fun _ => none)).visited ↔
      (("" : String) = "" ∨ sha256hex [] = "")) ∧
    (("" : String) ≠ "" → sha256hex [] ≠ "" →
      (run ⟨"d", "1.0", "u", some ⟨"2.0", "x", ""⟩, 0, UpdateState.available,
          some "2.0", ""⟩ (.ok []) (fun _ => .ok (fun _ => none))
          (fun _ => none)).auto.state = UpdateState.failed_update ∧
      UpdateState.installing ∉
        (run ⟨"d", "1.0", "u", some ⟨"2.0", "x", ""⟩, 0, UpdateState.available,
            some "2.0", ""⟩ (.ok []) (fun _ => .ok (fun _ => none))
            (fun _ => none)).visited)) :=
  C1_hash_gate _ ⟨"2.0", "x", ""⟩ [] _ _ rfl rfl

set_option maxRecDepth 8000 in
/-- Claim C1 counterexample: the empty byte sequence has digest
`e3b0...b855`; against the declared hash written in uppercase the digests are
equal case-insensitively, yet `apply()` raises the corruption error, ends in
`failed_update` and never reaches `installing` — refuting the claimed
case-insensitive comparison. -/
theorem C1_counterexample :
    lowerEq (sha256hex [])
      "E3B0C44298FC1C149AFBF4C8996FB92427AE41E4649B934CA495991B7852B855" = true ∧
    (run ⟨"d", "1.0", "u",
        some ⟨"2.0", "x",
          "E3B0C44298FC1C149AFBF4C8996FB92427AE41E4649B934CA495991B7852B855"⟩,
        0, UpdateState.available, some "2.0", ""⟩
        (.ok []) (fun _ => .ok (fun _ => none)) (fun _ => none)).auto.state
      = UpdateState.failed_update ∧
    UpdateState.installing ∉
      (run ⟨"d", "1.0", "u",
          some ⟨"2.0", "x",
            "E3B0C44298FC1C149AFBF4C8996FB92427AE41E4649B934CA495991B7852B855"⟩,
          0, UpdateState.available, some "2.0", ""⟩
          (.ok []) (fun _ => .ok (fun _ => none)) (fun _ => none)).visited := by
  refine ⟨by decide, by decide, ?_⟩
  have e : (run ⟨"d", "1.0", "u",
      some ⟨"2.0", "x",
        "E3B0C44298FC1C149AFBF4C8996FB92427AE41E4649B934CA495991B7852B855"⟩,
      0, UpdateState.available, some "2.0", ""⟩
      (.ok []) (fun _ => .ok (fun _ => none)) (fun _ => none)).visited
      = [UpdateState.downloading] := by decide
  rw [e]
  simp

/-- Claim C9: a successful `apply()` extracts the archive into the staging
directory and overlays its entries onto the live installation directory with
`shutil.copytree(..., dirs_exist_ok=True)` semantics — the final live
directory is exactly the merge, and every path absent from the new package
keeps its previous content. -/
theorem C9_install_preserves_other_files (a : AutoUpdate) (B : List Nat)
    (extract : List Nat → Except String (String → Option String))
    (live : String → Option String) (entries : String → Option String) (p : String)
    (hx : extract B = .ok entries)
    (hs : (runBody a (.ok B) extract live).exc = none)
    (hp : entries p = none) :
    (run a (.ok B) extract live).live = copytree entries live ∧
    (run a (.ok B) extract live).live p = live p := by
  unfold run
  unfold runBody at hs ⊢
  rcases hpk : a.package with _ | pk
  · rw [hpk] at hs
    simp at hs
  · rcases hlt : latestTruthy a.latest_version with _ | _
    · rw [hpk, hlt] at hs
      simp at hs
    · rw [hpk, hlt] at hs
      dsimp only at hs ⊢
      by_cases hc : sha256hex B ≠ pk.sha256 ∧ pk.sha256 ≠ ""
      · rw [if_pos hc] at hs
        simp at hs
      · rw [if_neg hc, hx]
        refine ⟨rfl, ?_⟩
        show copytree entries live p = live p
        unfold copytree
        rw [hp]
        rfl

set_option maxRecDepth 8000 in
theorem C9_install_preserves_other_files_witness :
    ((run ⟨"d", "1.0", "u", some ⟨"2.0", "x", ""⟩, 0, UpdateState.available,
        some "2.0", ""⟩ (.ok [])
        (fun _ => .ok (fun q => if q = "new.py" then some "n" else none))
        (fun q => if q = "old.py" then some "o" else none)).live
      = copytree (fun q => if q = "new.py" then some "n" else none)
          (fun q => if q = "old.py" then some "o" else none) ∧
    (run ⟨"d", "1.0", "u", some ⟨"2.0", "x", ""⟩, 0, UpdateState.available,
        some "2.0", ""⟩ (.ok [])
        (fun _ => .ok (fun q => if q = "new.py" then some "n" else none))
        (fun q => if q = "old.py" then some "o" else none)).live "old.py"
      = (fun q => if q = "old.py" then some "o" else none) "old.py") :=
  C9_install_preserves_other_files _ [] _ _
    (fun q => if q = "new.py" then some "n" else none) "old.py" rfl (by decide) rfl

end AiDiffusion
